import Mathlib

/-!
Shallow embedding of the Flask blog application in `src/main.py`.

The three SQLAlchemy tables (`users`, `blog_posts`, `comments`) are modelled
as Lean lists kept in insertion order; a session is the optional user id that
`flask_login` stores, resolved back to a row by `load_user`.  Each route
handler becomes a pure function from the database, session and request data
to a `HandlerResult`: a rendered/redirected response, a Python `None` return
(Flask's "view did not return a valid response"), or an uncaught exception.
Template rendering, CSRF and password hashing are external collaborators in
the source; hashing is modelled by an injective tagging function and the
missing `forms.py` validators are modelled from the spec where noted.
-/

namespace Blog

/-- HTTP method of a request, as branched on by the handlers. -/
inductive Method where
  | get
  | post
deriving Repr, DecidableEq

/-- A row of the `users` table (`User` model in `main.py`). -/
structure User where
  id : Nat
  email : String
  password : String
  name : String
deriving Repr, DecidableEq

/-- A row of the `blog_posts` table (`BlogPost` model in `main.py`).
`author_id` is the nullable foreign key to `users.id`. -/
structure BlogPost where
  id : Nat
  author_id : Option Nat
  title : String
  subtitle : String
  date : String
  body : String
  img_url : String
deriving Repr, DecidableEq

/-- A row of the `comments` table (`Comment` model in `main.py`), with
nullable foreign keys to its author and to the blog post it is attached to. -/
structure Comment where
  id : Nat
  text : String
  author_id : Option Nat
  blog_id : Option Nat
deriving Repr, DecidableEq

/-- The persistent store: the three tables, each in insertion order. -/
structure DB where
  users : List User
  posts : List BlogPost
  comments : List Comment
deriving Repr, DecidableEq

/-- The session: the user id `flask_login` remembered, or `none` when
the caller is anonymous. -/
abbrev Session := Option Nat

/-- Model of `bcrypt.generate_password_hash`: an injective tagging of the
plaintext, standing in for the (out-of-scope) hash primitive. -/
def generate_password_hash (pw : String) : String := "$2b$12$" ++ pw

/-- Model of `bcrypt.check_password_hash`: succeeds exactly when the stored
string is the hash of the candidate password. -/
def check_password_hash (stored pw : String) : Bool :=
  stored == generate_password_hash pw

/-- `load_user` from `main.py`: resolve a numeric id to the first `users`
row with that id (`User.query.filter_by(id=user_id).first()`). -/
def load_user (db : DB) (user_id : Nat) : Option User :=
  db.users.find? (fun u => u.id == user_id)

/-- `flask_login`'s `current_user`, resolved through `load_user`;
`none` models the anonymous user. -/
def current_user (db : DB) (sess : Session) : Option User :=
  sess.bind (load_user db)

/-- The test of the `admin_only` decorator:
`current_user.__dict__.get('id') == 1`.  The anonymous user has no `id`
attribute, so the lookup yields Python `None`, which is not `1`. -/
def admin_check (db : DB) (sess : Session) : Bool :=
  match current_user db sess with
  | some u => u.id == 1
  | none => false

/-- Data of `RegisterForm` (email, password, name), from `forms.py`. -/
structure RegisterFormData where
  email : String
  password : String
  name : String
deriving Repr, DecidableEq

/-- Data of `LoginForm` (email, password), from `forms.py`. -/
structure LoginFormData where
  email : String
  password : String
deriving Repr, DecidableEq

/-- Data of `CreatePostForm` (title, subtitle, body, img_url), from
`forms.py`. -/
structure CreatePostFormData where
  title : String
  subtitle : String
  body : String
  img_url : String
deriving Repr, DecidableEq

/-- Modelled from the spec: `forms.py` is not in the source tree, so
`RegisterForm.validate_on_submit` is modelled from the spec's words
"Register fails if the email already exists (surfaced as a form error, not
an exception)" together with the usual required-field checks: every field
non-empty and the email not already present in the `users` table. -/
def registerValidate (db : DB) (form : RegisterFormData) : Bool :=
  (form.email != "") && (form.password != "") && (form.name != "") &&
    !(db.users.any (fun u => u.email == form.email))

/-- Modelled from the spec: `forms.py` is not in the source tree, so
`LoginForm.validate_on_submit` is modelled as the usual required-field
checks (both fields non-empty); the distinct credential errors live in the
`login` handler itself. -/
def loginValidate (form : LoginFormData) : Bool :=
  (form.email != "") && (form.password != "")

/-- Modelled from the spec: `forms.py` is not in the source tree, so
`CreatePostForm.validate_on_submit` is modelled as the usual
required-field checks: every field non-empty. -/
def createPostValidate (form : CreatePostFormData) : Bool :=
  (form.title != "") && (form.subtitle != "") && (form.body != "") &&
    (form.img_url != "")

/-- A response produced by a handler: one of the rendered templates with the
data passed to it, a redirect, or an `abort` status. -/
inductive Resp where
  | renderIndex (all_posts : List BlogPost)
  | renderRegister (form : RegisterFormData)
  | renderLogin (form : LoginFormData) (email_errors password_errors : List String)
  | renderPost (post : Option BlogPost) (comment_text : String)
  | renderMakePost (form : CreatePostFormData)
  | renderAbout
  | renderContact
  | redirectHome
  | redirectShow (post_id : Nat)
  | abort (code : Nat)
deriving Repr, DecidableEq

/-- The complete outcome of one request: the database and session after the
handler ran together with its response; `noResponse` models the Python
function falling off the end and returning `None`; `fault` models an
uncaught exception (carrying the state, which the raising statement never
got to change). -/
inductive HandlerResult where
  | ok (db : DB) (sess : Session) (resp : Resp)
  | noResponse (db : DB) (sess : Session)
  | fault (db : DB) (sess : Session) (msg : String)
deriving Repr, DecidableEq

/-- The next auto-assigned primary key for a table whose rows carry the
listed ids. -/
def nextId (ids : List Nat) : Nat := ids.foldr max 0 + 1

/-- Next `users.id`. -/
def nextUserId (db : DB) : Nat := nextId (db.users.map (fun u => u.id))

/-- Next `blog_posts.id`. -/
def nextPostId (db : DB) : Nat := nextId (db.posts.map (fun p => p.id))

/-- Next `comments.id`. -/
def nextCommentId (db : DB) : Nat := nextId (db.comments.map (fun c => c.id))

/-- The `admin_only` decorator from `main.py`: run the wrapped handler when
the current session's user id is the sentinel `1`, otherwise `abort(403)`
without touching any state. -/
def admin_only (handler : DB → Session → HandlerResult) :
    DB → Session → HandlerResult :=
  fun db sess =>
    if admin_check db sess then handler db sess
    else .ok db sess (.abort 403)

/-- `get_all_posts` (`GET /`): render `index.html` with
`BlogPost.query.all()[::-1]`, the stored posts in reverse insertion
order. -/
def get_all_posts (db : DB) (sess : Session) : HandlerResult :=
  .ok db sess (.renderIndex db.posts.reverse)

/-- `register` (`/register`): on GET render the empty form; on a valid POST
hash the password, append the new `users` row, log the new user in and
redirect home; on an invalid POST re-render the form with its errors. -/
def register (db : DB) (sess : Session) (m : Method)
    (form : RegisterFormData) : HandlerResult :=
  match m with
  | .get => .ok db sess (.renderRegister ⟨"", "", ""⟩)
  | .post =>
    if registerValidate db form then
      let entry : User :=
        { id := nextUserId db
          email := form.email
          password := generate_password_hash form.password
          name := form.name }
      .ok { db with users := db.users ++ [entry] } (some entry.id)
        .redirectHome
    else .ok db sess (.renderRegister form)

/-- `login` (`/login`): on GET render the empty form; on a valid POST look
the email up, then either log the user in and redirect home, append
"Invalid password." to the password field's errors, or append
"No account registered using this email" to the email field's errors;
on an invalid POST re-render the form. -/
def login (db : DB) (sess : Session) (m : Method)
    (form : LoginFormData) : HandlerResult :=
  match m with
  | .get => .ok db sess (.renderLogin ⟨"", ""⟩ [] [])
  | .post =>
    if loginValidate form then
      match db.users.find? (fun u => u.email == form.email) with
      | some entry =>
        if check_password_hash entry.password form.password then
          .ok db (some entry.id) .redirectHome
        else
          .ok db sess (.renderLogin form [] ["Invalid password."])
      | none =>
        .ok db sess
          (.renderLogin form ["No account registered using this email"] [])
    else .ok db sess (.renderLogin form [] [])

/-- `logout` (`GET /logout`): drop the session and redirect home. -/
def logout (db : DB) (_sess : Session) : HandlerResult :=
  .ok db none .redirectHome

/-- The `comments` row built by `show_post`'s POST branch: text from the
comment form, author the current user, `b_post` the looked-up post (whose
id becomes the foreign key, `none` when the lookup found nothing). -/
def new_comment_row (db : DB) (text : String) (u : User)
    (requested_post : Option BlogPost) : Comment :=
  { id := nextCommentId db
    text := text
    author_id := some u.id
    blog_id := requested_post.map (fun p => p.id) }

/-- `show_post` (`/post/<int:post_id>`): look the post up with
`query.get`; on GET render it with a fresh comment form; on POST append a
comment linked to the current user and the post when authenticated, do
nothing when anonymous, and in both cases re-render the page with a fresh
form. -/
def show_post (db : DB) (sess : Session) (m : Method) (post_id : Nat)
    (comment_text : String) : HandlerResult :=
  let requested_post := db.posts.find? (fun p => p.id == post_id)
  match m with
  | .get => .ok db sess (.renderPost requested_post "")
  | .post =>
    match current_user db sess with
    | some u =>
      let row := new_comment_row db comment_text u requested_post
      .ok { db with comments := db.comments ++ [row] } sess
        (.renderPost requested_post "")
    | none => .ok db sess (.renderPost requested_post "")

/-- The `blog_posts` row built by `add_new_post`: submitted fields, the
current user as author, and today's formatted date. -/
def new_post_row (db : DB) (u : User) (form : CreatePostFormData)
    (today : String) : BlogPost :=
  { id := nextPostId db
    author_id := some u.id
    title := form.title
    subtitle := form.subtitle
    date := today
    body := form.body
    img_url := form.img_url }

/-- `add_new_post` (`/new-post`): NOT wrapped by `admin_only` in the
source.  On GET render the empty create form; on a valid POST append the
new post (authored by the current user, dated today) and redirect home —
with an anonymous `current_user` the SQLAlchemy cascade raises, since
`AnonymousUserMixin` is not a mapped class; on an invalid POST the Python
function returns `None` (the `if` has no `else` inside the POST branch). -/
def add_new_post (db : DB) (sess : Session) (m : Method)
    (form : CreatePostFormData) (today : String) : HandlerResult :=
  match m with
  | .post =>
    if createPostValidate form then
      match current_user db sess with
      | some u =>
        let row := new_post_row db u form today
        .ok { db with posts := db.posts ++ [row] } sess .redirectHome
      | none => .fault db sess "UnmappedInstanceError"
    else .noResponse db sess
  | .get => .ok db sess (.renderMakePost ⟨"", "", "", ""⟩)

/-- The in-place mutation of `edit_post`'s POST branch: overwrite title,
subtitle, image URL and body with the submitted values and reassign the
author to the given (current) user; id and date are untouched. -/
def edited_post (post : BlogPost) (form : CreatePostFormData)
    (author : Option Nat) : BlogPost :=
  { post with
      title := form.title
      subtitle := form.subtitle
      img_url := form.img_url
      author_id := author
      body := form.body }

/-- Committing an ORM mutation of the row with primary key `pid`: every
stored row with that id becomes the updated object. -/
def replace_post (pid : Nat) (updated : BlogPost)
    (l : List BlogPost) : List BlogPost :=
  l.map (fun q => if q.id == pid then updated else q)

/-- The body of `edit_post` (`/edit-post/<int:post_id>`), inside the
`admin_only` wrapper: `query.get` the post — when it is `None` the
form pre-fill `post.title` raises `AttributeError` — then on GET render
the pre-filled form, on a valid POST overwrite the fields (author
becoming the current user) and redirect to the post's page, and on an
invalid POST re-render the form. -/
def edit_post_inner (post_id : Nat) (m : Method)
    (form : CreatePostFormData) (db : DB) (sess : Session) : HandlerResult :=
  match db.posts.find? (fun p => p.id == post_id) with
  | none => .fault db sess "AttributeError"
  | some post =>
    match m with
    | .get =>
      .ok db sess (.renderMakePost
        ⟨post.title, post.subtitle, post.body, post.img_url⟩)
    | .post =>
      if createPostValidate form then
        let updated := edited_post post form
          ((current_user db sess).map (fun u => u.id))
        .ok { db with posts := replace_post post_id updated db.posts }
          sess (.redirectShow post.id)
      else .ok db sess (.renderMakePost form)

/-- `edit_post` as routed: the body wrapped in `admin_only`. -/
def edit_post (post_id : Nat) (m : Method) (form : CreatePostFormData) :
    DB → Session → HandlerResult :=
  admin_only (edit_post_inner post_id m form)

/-- The de-association SQLAlchemy's unit of work performs when a post is
deleted: the `BlogPost.comments` relationship has no `delete` cascade and
no `passive_deletes`, so at flush the deleted post's comments are loaded
and their `blog_id` foreign key is UPDATEd to NULL; every other comment
row is untouched. -/
def nullify_comments (pid : Nat) (l : List Comment) : List Comment :=
  l.map (fun c => if c.blog_id == some pid then { c with blog_id := none } else c)

/-- The body of `delete_post` (`GET /delete/<int:post_id>`), inside the
`admin_only` wrapper: `query.get` the post — when it is `None`,
`db.session.delete(None)` raises `UnmappedInstanceError` — otherwise
remove the row, de-associate its comments (`blog_id` set to NULL at
flush, there being no delete cascade) and redirect home. -/
def delete_post_inner (post_id : Nat) (db : DB)
    (sess : Session) : HandlerResult :=
  match db.posts.find? (fun p => p.id == post_id) with
  | none => .fault db sess "UnmappedInstanceError"
  | some post =>
    let db' : DB :=
      { db with
          posts := db.posts.filter (fun p => p.id != post_id)
          comments := nullify_comments post.id db.comments }
    .ok db' sess .redirectHome

/-- `delete_post` as routed: the body wrapped in `admin_only`. -/
def delete_post (post_id : Nat) : DB → Session → HandlerResult :=
  admin_only (delete_post_inner post_id)

/-- The three post-mutation routes, with the request data each carries. -/
inductive Route where
  | newPost (m : Method) (form : CreatePostFormData)
  | editPost (post_id : Nat) (m : Method) (form : CreatePostFormData)
  | deletePost (post_id : Nat)
deriving Repr, DecidableEq

/-- Routing of the three post-mutation endpoints exactly as decorated in
`main.py`: `/edit-post` and `/delete` go through `admin_only`,
`/new-post` does not. -/
def dispatch (r : Route) (today : String) (db : DB)
    (sess : Session) : HandlerResult :=
  match r with
  | .newPost m form => add_new_post db sess m form today
  | .editPost pid m form => edit_post pid m form db sess
  | .deletePost pid => delete_post pid db sess

/-- Resolution of a comment's `b_post` relationship against the store. -/
def resolve_b_post (db : DB) (c : Comment) : Option BlogPost :=
  c.blog_id.bind (fun i => db.posts.find? (fun p => p.id == i))

/-! Concrete fixtures used to witness the theorems on a populated store. -/

/-- The first registered account, holding the sentinel admin id `1`. -/
def sampleUser1 : User := ⟨1, "a@x.com", generate_password_hash "pw1", "Admin"⟩

/-- An ordinary second account, id `2`. -/
def sampleUser2 : User := ⟨2, "b@x.com", generate_password_hash "pw2", "Bob"⟩

/-- A stored post with id `1`, authored by user `2`. -/
def samplePost1 : BlogPost := ⟨1, some 2, "T1", "S1", "May 01, 2025", "B1", "U1"⟩

/-- A stored post with id `2`, authored by user `1`. -/
def samplePost2 : BlogPost := ⟨2, some 1, "T2", "S2", "May 02, 2025", "B2", "U2"⟩

/-- A populated store: two users, two posts, one comment on post `1`. -/
def sampleDB : DB :=
  { users := [sampleUser1, sampleUser2]
    posts := [samplePost1, samplePost2]
    comments := [⟨1, "hi", some 2, some 1⟩] }

/-! Helper lemmas about lookup and in-place update of rows. -/

/-- A successful `find?` by id pins the row's id. -/
lemma find?_post_id {l : List BlogPost} {pid : Nat} {p : BlogPost}
    (h : l.find? (fun q => q.id == pid) = some p) : (p.id == pid) = true := by
  have h2 := List.find?_some h
  simpa using h2

/-- After committing an update of the row found at `pid`, the lookup at
`pid` returns the updated row. -/
lemma replace_post_find? (l : List BlogPost) (pid : Nat) (p p' : BlogPost)
    (h : l.find? (fun q => q.id == pid) = some p)
    (hid : (p'.id == pid) = true) :
    (replace_post pid p' l).find? (fun q => q.id == pid) = some p' := by
  induction l with
  | nil => simp [List.find?] at h
  | cons a t ih =>
    by_cases ha : (a.id == pid) = true
    · have hr : replace_post pid p' (a :: t) = p' :: replace_post pid p' t := by
        simp only [replace_post, List.map_cons]
        rw [if_pos ha]
      rw [hr]
      exact List.find?_cons_of_pos _ hid
    · have hb : (a.id == pid) = false := by simpa using ha
      have hr : replace_post pid p' (a :: t) = a :: replace_post pid p' t := by
        simp only [replace_post, List.map_cons]
        rw [if_neg (by simp [hb])]
      rw [List.find?_cons_of_neg _ (by simp [hb])] at h
      rw [hr, List.find?_cons_of_neg _ (by simp [hb])]
      exact ih h

/-- Committing the same row update twice is the same as committing it
once. -/
lemma replace_post_idem (l : List BlogPost) (pid : Nat) (p' : BlogPost)
    (hid : (p'.id == pid) = true) :
    replace_post pid p' (replace_post pid p' l) = replace_post pid p' l := by
  induction l with
  | nil => rfl
  | cons a t ih =>
    by_cases ha : (a.id == pid) = true
    · have hr : replace_post pid p' (a :: t) = p' :: replace_post pid p' t := by
        simp only [replace_post, List.map_cons]
        rw [if_pos ha]
      have hr2 : replace_post pid p' (p' :: replace_post pid p' t) =
          p' :: replace_post pid p' (replace_post pid p' t) := by
        simp only [replace_post, List.map_cons]
        rw [if_pos hid]
      rw [hr, hr2, ih]
    · have hb : (a.id == pid) = false := by simpa using ha
      have hr : replace_post pid p' (a :: t) = a :: replace_post pid p' t := by
        simp only [replace_post, List.map_cons]
        rw [if_neg (by simp [hb])]
      have hr2 : replace_post pid p' (a :: replace_post pid p' t) =
          a :: replace_post pid p' (replace_post pid p' t) := by
        simp only [replace_post, List.map_cons]
        rw [if_neg (by simp [hb])]
      rw [hr, hr2, ih]

/-- With pairwise distinct user ids, resolving a stored user's id finds
exactly that user. -/
lemma find?_id_of_nodup (l : List User) (u : User) (hm : u ∈ l)
    (hn : (l.map (fun v => v.id)).Nodup) :
    l.find? (fun v => v.id == u.id) = some u := by
  induction l with
  | nil => cases hm
  | cons a t ih =>
    rw [List.map_cons, List.nodup_cons] at hn
    rcases List.mem_cons.mp hm with h | h
    · subst h; simp [List.find?]
    · have ha : (a.id == u.id) = false := by
        refine beq_eq_false_iff_ne.mpr ?_
        intro he
        exact hn.1 (he ▸ List.mem_map_of_mem (fun v => v.id) h)
      simp only [List.find?, ha]
      exact ih h hn.2

/-- The successful POST branch of `edit_post` for an admin session, a
valid form and an existing post: the row is overwritten in place and the
handler redirects to the post's page. -/
lemma edit_post_success (db : DB) (sess : Session) (pid : Nat)
    (form : CreatePostFormData) (p : BlogPost)
    (hadm : admin_check db sess = true)
    (hv : createPostValidate form = true)
    (hp : db.posts.find? (fun q => q.id == pid) = some p) :
    edit_post pid .post form db sess =
      .ok { db with posts := replace_post pid (edited_post p form ((current_user db sess).map (fun u => u.id))) db.posts } sess (.redirectShow p.id) := by
  simp [edit_post, admin_only, hadm, edit_post_inner, hp, hv]

/-- C1 (counterexample): the claim that all three admin routes return
403 to every caller other than user id 1 is false at a concrete input —
the session of user id 2 (not the admin) GETs `/new-post` and receives
the create form, because `add_new_post` is not wrapped by `admin_only`
in the source. -/
theorem new_post_route_unguarded_cex :
    admin_check sampleDB (some 2) = false ∧
    dispatch (.newPost .get ⟨"", "", "", ""⟩) "May 03, 2025" sampleDB (some 2) =
      .ok sampleDB (some 2) (.renderMakePost ⟨"", "", "", ""⟩) ∧
    dispatch (.newPost .get ⟨"", "", "", ""⟩) "May 03, 2025" sampleDB (some 2) ≠
      .ok sampleDB (some 2) (.abort 403) :=
  ⟨by decide, rfl, by decide⟩

/-- C1 (amended): only the edit (`/edit-post/<id>`) and delete
(`/delete/<id>`) routes are wrapped by the admin guard — every caller
whose session does not resolve to the sentinel admin id 1 receives an
HTTP 403 there, with no state change; the create route `/new-post` has no
guard, so every caller, the same non-admin included, reaches the handler
body (a GET returns the create form). -/
theorem admin_routes_amended (today : String) (db : DB) (sess : Session)
    (pid : Nat) (m : Method) (form : CreatePostFormData)
    (h : admin_check db sess = false) :
    dispatch (.editPost pid m form) today db sess = .ok db sess (.abort 403) ∧
    dispatch (.deletePost pid) today db sess = .ok db sess (.abort 403) ∧
    dispatch (.newPost m form) today db sess = add_new_post db sess m form today ∧
    dispatch (.newPost .get form) today db sess =
      .ok db sess (.renderMakePost ⟨"", "", "", ""⟩) := by
  refine ⟨?_, ?_, rfl, rfl⟩ <;>
    simp [dispatch, edit_post, delete_post, admin_only, h]

/-- C1 (witness): the amended statement instantiated for the session of
the non-admin user id 2 against the sample store. -/
theorem admin_routes_amended_wit :
    admin_check sampleDB (some 2) = false ∧
    (dispatch (.editPost 1 .get ⟨"", "", "", ""⟩) "May 03, 2025" sampleDB (some 2) =
        .ok sampleDB (some 2) (.abort 403) ∧
      dispatch (.deletePost 1) "May 03, 2025" sampleDB (some 2) =
        .ok sampleDB (some 2) (.abort 403) ∧
      dispatch (.newPost .get ⟨"", "", "", ""⟩) "May 03, 2025" sampleDB (some 2) =
        add_new_post sampleDB (some 2) .get ⟨"", "", "", ""⟩ "May 03, 2025" ∧
      dispatch (.newPost .get ⟨"", "", "", ""⟩) "May 03, 2025" sampleDB (some 2) =
        .ok sampleDB (some 2) (.renderMakePost ⟨"", "", "", ""⟩)) :=
  ⟨by decide,
   admin_routes_amended "May 03, 2025" sampleDB (some 2) 1 .get
     ⟨"", "", "", ""⟩ (by decide)⟩

/-- C2: a registration POST whose email already belongs to a stored user
fails as a form-level validation error — the handler re-renders the
registration form — and leaves the whole store, the `users` table
included, unchanged. -/
theorem register_duplicate_email_rejected (db : DB) (sess : Session)
    (form : RegisterFormData)
    (hdup : db.users.any (fun u => u.email == form.email) = true) :
    register db sess .post form = .ok db sess (.renderRegister form) := by
  have hv : registerValidate db form = false := by
    simp [registerValidate, hdup]
  simp [register, hv]

/-- C2 (witness): registering again with user 2's email against the
sample store re-renders the form and changes nothing. -/
theorem register_duplicate_email_rejected_wit :
    sampleDB.users.any (fun u => u.email == "b@x.com") = true ∧
    register sampleDB none .post ⟨"b@x.com", "zz", "Eve"⟩ =
      .ok sampleDB none (.renderRegister ⟨"b@x.com", "zz", "Eve"⟩) :=
  ⟨by decide,
   register_duplicate_email_rejected sampleDB none ⟨"b@x.com", "zz", "Eve"⟩
     (by decide)⟩

/-- C8: when the post id names no stored row, the admin-gated edit and
delete handlers do not answer with a 404 or a form error: the `None`
returned by `query.get` makes the handler raise (`post.title` during the
form pre-fill, `session.delete(None)` respectively), an unhandled
fault. -/
theorem missing_post_unhandled_fault (db : DB) (sess : Session) (pid : Nat)
    (m : Method) (form : CreatePostFormData)
    (hadm : admin_check db sess = true)
    (hp : db.posts.find? (fun q => q.id == pid) = none) :
    edit_post pid m form db sess = .fault db sess "AttributeError" ∧
    delete_post pid db sess = .fault db sess "UnmappedInstanceError" := by
  constructor <;>
    simp [edit_post, delete_post, admin_only, hadm, edit_post_inner,
      delete_post_inner, hp]

/-- C8 (witness): the admin asking to edit or delete the absent post id
99 of the sample store hits the unhandled fault. -/
theorem missing_post_unhandled_fault_wit :
    admin_check sampleDB (some 1) = true ∧
    sampleDB.posts.find? (fun q => q.id == 99) = none ∧
    (edit_post 99 .get ⟨"", "", "", ""⟩ sampleDB (some 1) =
        .fault sampleDB (some 1) "AttributeError" ∧
      delete_post 99 sampleDB (some 1) =
        .fault sampleDB (some 1) "UnmappedInstanceError") :=
  ⟨by decide, by decide,
   missing_post_unhandled_fault sampleDB (some 1) 99 .get ⟨"", "", "", ""⟩
     (by decide) (by decide)⟩

/-- C9: a POST to `/new-post` that fails form validation returns no
response at all: the POST branch of `add_new_post` has no fallback
`return`, so the Python function falls off the end and yields `None`
instead of re-rendering the form. -/
theorem invalid_create_post_no_response (db : DB) (sess : Session)
    (form : CreatePostFormData) (today : String)
    (hv : createPostValidate form = false) :
    add_new_post db sess .post form today = .noResponse db sess := by
  simp [add_new_post, hv]

/-- C3: listing renders exactly the stored posts in reverse insertion
order (newest first), and a successful create appends its row to the
store, which makes that row the first element of the next listing. -/
theorem posts_listing_newest_first (db : DB) (sess : Session)
    (form : CreatePostFormData) (today : String) (u : User)
    (hv : createPostValidate form = true)
    (hu : current_user db sess = some u) :
    get_all_posts db sess = .ok db sess (.renderIndex db.posts.reverse) ∧
    add_new_post db sess .post form today =
      .ok { db with posts := db.posts ++ [new_post_row db u form today] } sess .redirectHome ∧
    ({ db with posts := db.posts ++ [new_post_row db u form today] } : DB).posts.reverse =
      new_post_row db u form today :: db.posts.reverse := by
  refine ⟨rfl, ?_, by simp⟩
  simp [add_new_post, hv, hu]

/-- C3 (witness): user 2 creates a post against the sample store; the
new row is the head of the subsequent listing. -/
theorem posts_listing_newest_first_wit :
    createPostValidate ⟨"T3", "S3", "B3", "U3"⟩ = true ∧
    current_user sampleDB (some 2) = some sampleUser2 ∧
    (get_all_posts sampleDB (some 2) =
        .ok sampleDB (some 2) (.renderIndex sampleDB.posts.reverse) ∧
      add_new_post sampleDB (some 2) .post ⟨"T3", "S3", "B3", "U3"⟩ "May 03, 2025" =
        .ok { sampleDB with posts := sampleDB.posts ++ [new_post_row sampleDB sampleUser2 ⟨"T3", "S3", "B3", "U3"⟩ "May 03, 2025"] } (some 2) .redirectHome ∧
      ({ sampleDB with posts := sampleDB.posts ++ [new_post_row sampleDB sampleUser2 ⟨"T3", "S3", "B3", "U3"⟩ "May 03, 2025"] } : DB).posts.reverse =
        new_post_row sampleDB sampleUser2 ⟨"T3", "S3", "B3", "U3"⟩ "May 03, 2025" :: sampleDB.posts.reverse) :=
  ⟨by decide, by decide,
   posts_listing_newest_first sampleDB (some 2) ⟨"T3", "S3", "B3", "U3"⟩
     "May 03, 2025" sampleUser2 (by decide) (by decide)⟩

/-- C4: POSTing a comment on an existing post while anonymous leaves the
whole store, the `comments` table included, unchanged and re-renders the
page with no error feedback; while authenticated it appends exactly one
`comments` row whose author is the session's user and whose `blog_id` is
the viewed post's id, then re-renders the same page. -/
theorem comment_submission_frame (db : DB) (sess : Session) (pid : Nat)
    (text : String) (p : BlogPost)
    (hp : db.posts.find? (fun q => q.id == pid) = some p) :
    (current_user db sess = none →
      show_post db sess .post pid text = .ok db sess (.renderPost (some p) "")) ∧
    (∀ u : User, current_user db sess = some u →
      show_post db sess .post pid text =
        .ok { db with comments := db.comments ++ [(⟨nextCommentId db, text, some u.id, some p.id⟩ : Comment)] } sess (.renderPost (some p) "")) := by
  constructor
  · intro h
    simp [show_post, hp, h]
  · intro u h
    simp [show_post, hp, h, new_comment_row]

/-- C4 (witness): against the sample store an anonymous POST to
`/post/1` changes nothing, while user 2's POST appends exactly the one
expected comment row. -/
theorem comment_submission_frame_wit :
    sampleDB.posts.find? (fun q => q.id == 1) = some samplePost1 ∧
    show_post sampleDB none .post 1 "nice" =
      .ok sampleDB none (.renderPost (some samplePost1) "") ∧
    show_post sampleDB (some 2) .post 1 "nice" =
      .ok { sampleDB with comments := sampleDB.comments ++ [(⟨nextCommentId sampleDB, "nice", some sampleUser2.id, some samplePost1.id⟩ : Comment)] } (some 2) (.renderPost (some samplePost1) "") :=
  ⟨by decide,
   (comment_submission_frame sampleDB none 1 "nice" samplePost1 (by decide)).1 rfl,
   (comment_submission_frame sampleDB (some 2) 1 "nice" samplePost1 (by decide)).2
     sampleUser2 (by decide)⟩

/-- C5: a valid login POST resolves in three exclusive ways: matching
email and password log the stored user in (the new session resolves back
to exactly that record); a matching email with a wrong password yields
the password-field error "Invalid password." and leaves the session
alone; an unknown email yields the distinct email-field error
"No account registered using this email" and leaves the session
alone. -/
theorem login_cases (db : DB) (sess : Session) (form : LoginFormData)
    (hv : loginValidate form = true)
    (hn : (db.users.map (fun v => v.id)).Nodup) :
    (∀ u : User, db.users.find? (fun v => v.email == form.email) = some u →
      (check_password_hash u.password form.password = true →
        login db sess .post form = .ok db (some u.id) .redirectHome ∧
        current_user db (some u.id) = some u) ∧
      (check_password_hash u.password form.password = false →
        login db sess .post form =
          .ok db sess (.renderLogin form [] ["Invalid password."]))) ∧
    (db.users.find? (fun v => v.email == form.email) = none →
      login db sess .post form =
        .ok db sess
          (.renderLogin form ["No account registered using this email"] [])) := by
  constructor
  · intro u hu
    constructor
    · intro hc
      refine ⟨by simp [login, hv, hu, hc], ?_⟩
      have hm : u ∈ db.users := List.mem_of_find?_eq_some hu
      simpa [current_user, load_user] using find?_id_of_nodup db.users u hm hn
    · intro hc
      simp [login, hv, hu, hc]
  · intro hnone
    simp [login, hv, hnone]

/-- C5 (witness): against the sample store, user 2's correct password
logs user 2 in and the session resolves to that record; the wrong
password and an unknown email each produce their own field error with no
session change. -/
theorem login_cases_wit :
    loginValidate ⟨"b@x.com", "pw2"⟩ = true ∧
    (sampleDB.users.map (fun v => v.id)).Nodup ∧
    login sampleDB none .post ⟨"b@x.com", "pw2"⟩ =
      .ok sampleDB (some sampleUser2.id) .redirectHome ∧
    current_user sampleDB (some sampleUser2.id) = some sampleUser2 ∧
    login sampleDB none .post ⟨"b@x.com", "bad"⟩ =
      .ok sampleDB none (.renderLogin ⟨"b@x.com", "bad"⟩ [] ["Invalid password."]) ∧
    login sampleDB none .post ⟨"z@x.com", "pw"⟩ =
      .ok sampleDB none
        (.renderLogin ⟨"z@x.com", "pw"⟩ ["No account registered using this email"] []) :=
  ⟨by decide, by decide,
   ((login_cases sampleDB none ⟨"b@x.com", "pw2"⟩ (by decide) (by decide)).1
     sampleUser2 (by decide) |>.1 (by decide)).1,
   ((login_cases sampleDB none ⟨"b@x.com", "pw2"⟩ (by decide) (by decide)).1
     sampleUser2 (by decide) |>.1 (by decide)).2,
   (login_cases sampleDB none ⟨"b@x.com", "bad"⟩ (by decide) (by decide)).1
     sampleUser2 (by decide) |>.2 (by decide),
   (login_cases sampleDB none ⟨"z@x.com", "pw"⟩ (by decide) (by decide)).2
     (by decide)⟩

/-- C6: a successful edit is idempotent — running the same valid edit
(same fields, same logged-in editor) against the store it produced
changes nothing further: same resulting store, same response, and no
other table touched (the result pins every field of the store). -/
theorem edit_post_idempotent (db : DB) (sess : Session) (pid : Nat)
    (form : CreatePostFormData) (p : BlogPost)
    (hadm : admin_check db sess = true)
    (hv : createPostValidate form = true)
    (hp : db.posts.find? (fun q => q.id == pid) = some p) :
    edit_post pid .post form db sess =
      .ok { db with posts := replace_post pid (edited_post p form ((current_user db sess).map (fun u => u.id))) db.posts } sess (.redirectShow p.id) ∧
    edit_post pid .post form { db with posts := replace_post pid (edited_post p form ((current_user db sess).map (fun u => u.id))) db.posts } sess =
      .ok { db with posts := replace_post pid (edited_post p form ((current_user db sess).map (fun u => u.id))) db.posts } sess (.redirectShow p.id) := by
  have hid : (p.id == pid) = true := find?_post_id hp
  refine ⟨edit_post_success db sess pid form p hadm hv hp, ?_⟩
  have hid2 : ((edited_post p form ((current_user db sess).map (fun u => u.id))).id == pid) = true := hid
  have hp1 : List.find? (fun q => q.id == pid)
      (replace_post pid (edited_post p form ((current_user db sess).map (fun u => u.id))) db.posts) =
      some (edited_post p form ((current_user db sess).map (fun u => u.id))) :=
    replace_post_find? db.posts pid p _ hp hid2
  have hadm1 : admin_check { db with posts := replace_post pid (edited_post p form ((current_user db sess).map (fun u => u.id))) db.posts } sess = true := hadm
  have hcu : current_user { db with posts := replace_post pid (edited_post p form ((current_user db sess).map (fun u => u.id))) db.posts } sess = current_user db sess := rfl
  have hee : edited_post (edited_post p form ((current_user db sess).map (fun u => u.id))) form ((current_user db sess).map (fun u => u.id)) = edited_post p form ((current_user db sess).map (fun u => u.id)) := rfl
  have h3 : replace_post pid (edited_post p form ((current_user db sess).map (fun u => u.id)))
      (replace_post pid (edited_post p form ((current_user db sess).map (fun u => u.id))) db.posts) =
      replace_post pid (edited_post p form ((current_user db sess).map (fun u => u.id))) db.posts :=
    replace_post_idem db.posts pid _ hid2
  have hid3 : (edited_post p form ((current_user db sess).map (fun u => u.id))).id = p.id := rfl
  simp [edit_post, admin_only, hadm1, edit_post_inner, hp1, hv, hcu, hee, h3, hid3]

/-- C6 (witness): the admin edits post 1 of the sample store with a
fixed form; re-submitting the identical edit against the resulting store
reproduces the result exactly. -/
theorem edit_post_idempotent_wit :
    admin_check sampleDB (some 1) = true ∧
    createPostValidate ⟨"T9", "S9", "B9", "U9"⟩ = true ∧
    sampleDB.posts.find? (fun q => q.id == 1) = some samplePost1 ∧
    (edit_post 1 .post ⟨"T9", "S9", "B9", "U9"⟩ sampleDB (some 1) =
        .ok { sampleDB with posts := replace_post 1 (edited_post samplePost1 ⟨"T9", "S9", "B9", "U9"⟩ ((current_user sampleDB (some 1)).map (fun u => u.id))) sampleDB.posts } (some 1) (.redirectShow samplePost1.id) ∧
      edit_post 1 .post ⟨"T9", "S9", "B9", "U9"⟩ { sampleDB with posts := replace_post 1 (edited_post samplePost1 ⟨"T9", "S9", "B9", "U9"⟩ ((current_user sampleDB (some 1)).map (fun u => u.id))) sampleDB.posts } (some 1) =
        .ok { sampleDB with posts := replace_post 1 (edited_post samplePost1 ⟨"T9", "S9", "B9", "U9"⟩ ((current_user sampleDB (some 1)).map (fun u => u.id))) sampleDB.posts } (some 1) (.redirectShow samplePost1.id)) :=
  ⟨by decide, by decide, by decide,
   edit_post_idempotent sampleDB (some 1) 1 ⟨"T9", "S9", "B9", "U9"⟩
     samplePost1 (by decide) (by decide) (by decide)⟩

/-- C7: a successful edit overwrites every mutable field of the stored
post (title, subtitle, image URL, body) with the submitted values and
reassigns the author to the logged-in editor — whoever that is, original
author or not — while the id and date survive. -/
theorem edit_post_overwrites_author (db : DB) (sess : Session) (pid : Nat)
    (form : CreatePostFormData) (p : BlogPost) (u : User)
    (hadm : admin_check db sess = true)
    (hv : createPostValidate form = true)
    (hp : db.posts.find? (fun q => q.id == pid) = some p)
    (hu : current_user db sess = some u) :
    edit_post pid .post form db sess =
      .ok { db with posts := replace_post pid (edited_post p form (some u.id)) db.posts } sess (.redirectShow p.id) ∧
    edited_post p form (some u.id) =
      ⟨p.id, some u.id, form.title, form.subtitle, p.date, form.body, form.img_url⟩ := by
  constructor
  · have h1 := edit_post_success db sess pid form p hadm hv hp
    simpa [hu] using h1
  · rfl

/-- C7 (witness): the admin (user 1) edits post 1 of the sample store,
which user 2 authored; every submitted field lands and the author becomes
user 1, not the original user 2. -/
theorem edit_post_overwrites_author_wit :
    admin_check sampleDB (some 1) = true ∧
    createPostValidate ⟨"T9", "S9", "B9", "U9"⟩ = true ∧
    sampleDB.posts.find? (fun q => q.id == 1) = some samplePost1 ∧
    current_user sampleDB (some 1) = some sampleUser1 ∧
    samplePost1.author_id = some 2 ∧
    sampleUser1.id = 1 ∧
    (edit_post 1 .post ⟨"T9", "S9", "B9", "U9"⟩ sampleDB (some 1) =
        .ok { sampleDB with posts := replace_post 1 (edited_post samplePost1 ⟨"T9", "S9", "B9", "U9"⟩ (some sampleUser1.id)) sampleDB.posts } (some 1) (.redirectShow samplePost1.id) ∧
      edited_post samplePost1 ⟨"T9", "S9", "B9", "U9"⟩ (some sampleUser1.id) =
        ⟨samplePost1.id, some sampleUser1.id, "T9", "S9", samplePost1.date, "B9", "U9"⟩) :=
  ⟨by decide, by decide, by decide, by decide, by decide, by decide,
   edit_post_overwrites_author sampleDB (some 1) 1 ⟨"T9", "S9", "B9", "U9"⟩
     samplePost1 sampleUser1 (by decide) (by decide) (by decide) (by decide)⟩

/-- C10: deleting a stored post removes only that post's row from
`blog_posts`; no comment row is deleted (same count, each row keeping
its id, text and author), but the deleted post's comments are
de-associated — SQLAlchemy sets their `blog_id` to NULL at flush, there
being no delete cascade — so their `b_post` reference no longer
resolves; comments of other posts survive verbatim and the `users`
table is untouched. -/
theorem delete_post_preserves_comments (db : DB) (sess : Session)
    (pid : Nat) (p : BlogPost)
    (hadm : admin_check db sess = true)
    (hp : db.posts.find? (fun q => q.id == pid) = some p) :
    delete_post pid db sess =
      .ok { db with posts := db.posts.filter (fun q => q.id != pid), comments := nullify_comments p.id db.comments } sess .redirectHome ∧
    ({ db with posts := db.posts.filter (fun q => q.id != pid), comments := nullify_comments p.id db.comments } : DB).users = db.users ∧
    (nullify_comments p.id db.comments).length = db.comments.length ∧
    (∀ c ∈ db.comments, (c.blog_id == some p.id) = false →
      c ∈ nullify_comments p.id db.comments) ∧
    (∀ c ∈ db.comments, c.blog_id = some p.id →
      (⟨c.id, c.text, c.author_id, none⟩ : Comment) ∈ nullify_comments p.id db.comments ∧
      resolve_b_post { db with posts := db.posts.filter (fun q => q.id != pid), comments := nullify_comments p.id db.comments } ⟨c.id, c.text, c.author_id, none⟩ = none) ∧
    (∀ q ∈ db.posts, (q.id == pid) = false →
      q ∈ db.posts.filter (fun q => q.id != pid)) ∧
    (∀ q ∈ db.posts.filter (fun q => q.id != pid), (q.id == pid) = false) := by
  refine ⟨?_, rfl, ?_, ?_, ?_, ?_, ?_⟩
  · simp [delete_post, admin_only, hadm, delete_post_inner, hp]
  · simp [nullify_comments]
  · intro c hc hne
    have hf : (if c.blog_id == some p.id then { c with blog_id := none } else c) = c := by
      rw [if_neg (by simp [hne])]
    show c ∈ List.map
      (fun c => if c.blog_id == some p.id then { c with blog_id := none } else c)
      db.comments
    exact List.mem_map.mpr ⟨c, hc, hf⟩
  · intro c hc h
    have hf : (if c.blog_id == some p.id then { c with blog_id := none } else c) =
        (⟨c.id, c.text, c.author_id, none⟩ : Comment) := by
      rw [if_pos (by simp [h])]
    refine ⟨?_, rfl⟩
    show (⟨c.id, c.text, c.author_id, none⟩ : Comment) ∈ List.map
      (fun c => if c.blog_id == some p.id then { c with blog_id := none } else c)
      db.comments
    exact List.mem_map.mpr ⟨c, hc, hf⟩
  · intro q hq hne
    have hne' : ¬ q.id = pid := by simpa using hne
    simp [List.mem_filter, hq, hne']
  · intro q hq
    rcases List.mem_filter.mp hq with ⟨_, hne⟩
    simpa using hne

/-- C10 (witness): the admin deletes post 1 of the sample store; the
comment on it keeps its row (id, text, author intact) with `blog_id`
nullified, and its post reference no longer resolves. -/
theorem delete_post_preserves_comments_wit :
    admin_check sampleDB (some 1) = true ∧
    sampleDB.posts.find? (fun q => q.id == 1) = some samplePost1 ∧
    (delete_post 1 sampleDB (some 1) =
        .ok { sampleDB with posts := sampleDB.posts.filter (fun q => q.id != 1), comments := nullify_comments samplePost1.id sampleDB.comments } (some 1) .redirectHome ∧
      ({ sampleDB with posts := sampleDB.posts.filter (fun q => q.id != 1), comments := nullify_comments samplePost1.id sampleDB.comments } : DB).users = sampleDB.users ∧
      (nullify_comments samplePost1.id sampleDB.comments).length = sampleDB.comments.length ∧
      (∀ c ∈ sampleDB.comments, (c.blog_id == some samplePost1.id) = false →
        c ∈ nullify_comments samplePost1.id sampleDB.comments) ∧
      (∀ c ∈ sampleDB.comments, c.blog_id = some samplePost1.id →
        (⟨c.id, c.text, c.author_id, none⟩ : Comment) ∈ nullify_comments samplePost1.id sampleDB.comments ∧
        resolve_b_post { sampleDB with posts := sampleDB.posts.filter (fun q => q.id != 1), comments := nullify_comments samplePost1.id sampleDB.comments } ⟨c.id, c.text, c.author_id, none⟩ = none) ∧
      (∀ q ∈ sampleDB.posts, (q.id == 1) = false →
        q ∈ sampleDB.posts.filter (fun q => q.id != 1)) ∧
      (∀ q ∈ sampleDB.posts.filter (fun q => q.id != 1), (q.id == 1) = false)) :=
  ⟨by decide, by decide,
   delete_post_preserves_comments sampleDB (some 1) 1 samplePost1
     (by decide) (by decide)⟩

/-- C9 (witness): the admin POSTing a create form with an empty title
gets no response back. -/
theorem invalid_create_post_no_response_wit :
    createPostValidate ⟨"", "S3", "B3", "U3"⟩ = false ∧
    add_new_post sampleDB (some 1) .post ⟨"", "S3", "B3", "U3"⟩ "May 03, 2025" =
      .noResponse sampleDB (some 1) :=
  ⟨by decide,
   invalid_create_post_no_response sampleDB (some 1) ⟨"", "S3", "B3", "U3"⟩
     "May 03, 2025" (by decide)⟩

end Blog
